import Mathlib

/-!
# Landing page script (`src/js/script.js`)

A shallow embedding of the `DOMContentLoaded` handler of the landing page and of the
click listeners it registers: the mobile menu, the language switcher and the
testimonial carousel.

Modelling conventions.

* The document is a record of the few pieces of DOM state the script reads or writes.
  Elements that the script dereferences without a guard (menu button, navigation
  panel, language switch, and inside the slider the wrapper, the two buttons and the
  dots container) exist, as the markup contract says; the slider itself is optional
  because the script tests it.
* Translatable elements are a flat list: none is nested in another one, and the
  language switch is not one of them.
* An object read by `translations[lang][key]` is given by its property reads, own or
  inherited, as line 67 sees them (`Dict`): nothing for `undefined`, else the text the
  DOM receives. The dictionaries and the members that the object literal of line 45
  inherits from `Object.prototype` are supplied by the environment; no read throws.
* JavaScript numbers that hold slide positions are integers (`Int`), the remainder
  operator `%` is the truncating `Int.tmod`, and `dataset.index`, which stores the
  decimal text of a position and is read back by `parseInt`, is that position.
* The dots container is empty in the markup: its `.dot` children are the dots the
  script creates.
* An exception that escapes a listener is recorded in `uncaught`.
-/

namespace LandingPage

/-! ## `classList` -/

namespace ClassList

/-- Membership test of `classList.contains(token)`. -/
def contains (cl : List String) (token : String) : Bool :=
  cl.contains token

/-- Token insertion of `classList.add(token)`: no effect when the token is present. -/
def add (cl : List String) (token : String) : List String :=
  if contains cl token then cl else cl ++ [token]

/-- Token removal of `classList.remove(token)`. -/
def remove (cl : List String) (token : String) : List String :=
  cl.filter (fun c => c != token)

/-- Token flip of `classList.toggle(token)`. -/
def toggle (cl : List String) (token : String) : List String :=
  if contains cl token then remove cl token else cl ++ [token]

end ClassList

/-! ## Data model -/

/-- An element selected by `[data-key]`. -/
structure Element where
  dataKey : String
  tagName : String
  textContent : String
  placeholder : String
deriving DecidableEq, Repr

/-- The property reads `object[key]` of a locale dictionary, or of any other object the
script reads a key from: `none` when the read gives `undefined` or another falsy value
that is not a string, `some s` when it gives the string `s`, or a truthy value of
another type, which the DOM shows as `s`. -/
abbrev Dict := String → Option String

/-- The object `{ en: translationsEN, es: translationsES }` of line 45: its two own
properties, and `inherited`, the members it finds through its prototype chain (those of
`Object.prototype`, such as `constructor`), each one given by its property reads. -/
structure Translations where
  en : Dict
  es : Dict
  inherited : String → Option Dict

/-- Property access `translations[lang]`: an own property first, then the prototype
chain; `none` when the read gives `undefined`. -/
def Translations.get (t : Translations) (lang : String) : Option Dict :=
  if lang = "en" then some t.en else if lang = "es" then some t.es else t.inherited lang

/-- An indicator created by the carousel: its class list and `dataset.index`. -/
structure Dot where
  classList : List String
  index : Nat
deriving DecidableEq, Repr

/-- The closure of the carousel block (lines 104-144) with the DOM state it owns. -/
structure Carousel where
  totalSlides : Nat
  currentIndex : Int
  dots : List Dot
  transform : String
  uncaught : List String
deriving DecidableEq, Repr

/-- The page as the handler finds it: markup, globals and local storage;
`objectPrototype` holds the members that every object literal inherits. -/
structure Markup where
  navMenu : List String
  navLinks : Nat
  translationsEN : Option Dict
  translationsES : Option Dict
  objectPrototype : String → Option Dict
  storage : Option String
  documentLang : String
  elements : List Element
  switcherText : String
  slider : Bool
  testimonials : Nat

/-- The page after the handler ran. `translations` and `currentLang` are the closure
variables of the language block (absent when the handler returned before declaring
them); `carousel` is absent when the carousel block did not run. -/
structure Page where
  navMenu : List String
  navLinks : Nat
  storage : Option String
  documentLang : String
  elements : List Element
  switcherText : String
  translations : Option Translations
  currentLang : Option String
  carousel : Option Carousel
  console : List String

/-! ## Mobile menu (lines 16-31) -/

/-- Listener of the menu button (lines 20-22). -/
def mobileMenuBtnClick (navMenu : List String) : List String :=
  ClassList.toggle navMenu "active"

/-- Listener of a navigation link (lines 26-30). -/
def navLinkClick (navMenu : List String) : List String :=
  if ClassList.contains navMenu "active" then ClassList.remove navMenu "active" else navMenu

/-! ## Language switcher (lines 39-86, 154) -/

/-- Truthiness of `translations[lang][key]`: a missing entry and the empty string are
falsy. -/
def truthy : Option String → Bool
  | none => false
  | some v => v != ""

/-- Body of the `forEach` callback of `setLanguage` (lines 66-75). -/
def translateElement (t : Translations) (lang : String) (element : Element) : Element :=
  match t.get lang with
  | none => element
  | some dict =>
    if truthy (dict element.dataKey) then
      match dict element.dataKey with
      | some value =>
        if element.tagName = "INPUT" ∨ element.tagName = "TEXTAREA" then
          { element with placeholder := value }
        else
          { element with textContent := value }
      | none => element
    else element

/-- The function `setLanguage` (lines 58-80). -/
def setLanguage (t : Translations) (lang : String) (p : Page) : Page :=
  { p with
    currentLang := some lang
    storage := some lang
    documentLang := lang
    elements := p.elements.map (translateElement t lang)
    switcherText := if lang = "en" then "ES" else "EN" }

/-- The expression `localStorage.getItem('language') || 'en'` of line 52. -/
def initialLang (stored : Option String) : String :=
  match stored with
  | none => "en"
  | some s => if s = "" then "en" else s

/-- The expression `currentLang === 'en' ? 'es' : 'en'` of line 84. -/
def newLang (currentLang : String) : String :=
  if currentLang = "en" then "es" else "en"

/-- Listener of the language switch (lines 83-86). -/
def languageSwitcherClick (t : Translations) (p : Page) : Page :=
  match p.currentLang with
  | some currentLang => setLanguage t (newLang currentLang) p
  | none => p

/-! ## Testimonial carousel (lines 94-146) -/

/-- One turn of the creation loop (lines 109-113). -/
def createDot (i : Nat) : Dot :=
  { classList := if i = 0 then ClassList.add (ClassList.add [] "dot") "active"
                 else ClassList.add [] "dot"
    index := i }

/-- The creation loop (lines 108-114) followed by
`dotsContainer.querySelectorAll('.dot')` (line 115). -/
def createDots (totalSlides : Nat) : List Dot :=
  ((List.range totalSlides).map createDot).filter
    (fun d => ClassList.contains d.classList "dot")

/-- The element access `dots[currentIndex]`. -/
def dotAt (dots : List Dot) (currentIndex : Int) : Option Dot :=
  if 0 ≤ currentIndex then dots[currentIndex.toNat]? else none

/-- The function `updateCarousel` (lines 120-124). -/
def updateCarousel (c : Carousel) : Carousel :=
  let transform := "translateX(-" ++ toString (c.currentIndex * 100) ++ "%)"
  let dots := c.dots.map (fun dot =>
    { dot with classList := ClassList.remove dot.classList "active" })
  match dotAt dots c.currentIndex with
  | some dot =>
    { c with
      transform := transform
      dots := dots.set c.currentIndex.toNat
        { dot with classList := ClassList.add dot.classList "active" } }
  | none =>
    { c with transform := transform, dots := dots, uncaught := c.uncaught ++ ["TypeError"] }

/-- Listener of the "next" button (lines 127-130). -/
def nextBtnClick (c : Carousel) : Carousel :=
  updateCarousel { c with currentIndex := Int.tmod (c.currentIndex + 1) c.totalSlides }

/-- Listener of the "previous" button (lines 133-136). -/
def prevBtnClick (c : Carousel) : Carousel :=
  updateCarousel
    { c with currentIndex := Int.tmod (c.currentIndex - 1 + c.totalSlides) c.totalSlides }

/-- Listener of a dot (lines 140-143): `parseInt(dot.dataset.index)` reads back the
position stored on the dot at its creation. -/
def dotClick (dot : Dot) (c : Carousel) : Carousel :=
  updateCarousel { c with currentIndex := dot.index }

/-- The carousel block below `if (slider)`, lines 103-145: nothing is set up unless
there is more than one slide. -/
def initCarousel (testimonials : Nat) : Option Carousel :=
  if testimonials > 1 then
    some { totalSlides := testimonials
           currentIndex := 0
           dots := createDots testimonials
           transform := ""
           uncaught := [] }
  else none

/-- A navigation interaction with the carousel. -/
inductive Nav where
  | next
  | prev
  | dot (i : Nat)
deriving DecidableEq, Repr

/-- Dispatch of a navigation click to its listener; there is nothing to click at a
position that holds no dot. -/
def Carousel.click (c : Carousel) : Nav → Carousel
  | .next => nextBtnClick c
  | .prev => prevBtnClick c
  | .dot i =>
    match c.dots[i]? with
    | some d => dotClick d c
    | none => c

/-- A sequence of navigation clicks, oldest first. -/
def Carousel.run (c : Carousel) (navs : List Nav) : Carousel :=
  navs.foldl Carousel.click c

/-! ## The `DOMContentLoaded` handler (lines 8-155) -/

/-- The diagnostic of line 41. -/
def diagnostic : String :=
  "Translation files (en.js, es.js) are not loaded correctly."

/-- The handler, in source order: menu listeners, dictionary check with its early
`return`, language closure, carousel block, initial `setLanguage`. -/
def domContentLoaded (m : Markup) : Page :=
  let p : Page :=
    { navMenu := m.navMenu
      navLinks := m.navLinks
      storage := m.storage
      documentLang := m.documentLang
      elements := m.elements
      switcherText := m.switcherText
      translations := none
      currentLang := none
      carousel := none
      console := [] }
  match m.translationsEN, m.translationsES with
  | some en, some es =>
    let t : Translations := { en := en, es := es, inherited := m.objectPrototype }
    let currentLang := initialLang m.storage
    let p := { p with translations := some t, currentLang := some currentLang }
    let p := { p with carousel := if m.slider then initCarousel m.testimonials else none }
    setLanguage t currentLang p
  | _, _ => { p with console := p.console ++ [diagnostic] }

/-- A click on the page. -/
inductive Event where
  | mobileMenuBtn
  | navLink (j : Nat)
  | languageSwitcher
  | nav (n : Nav)
deriving DecidableEq, Repr

/-- Dispatch of a click to the listener registered on its target, if any. -/
def click (p : Page) : Event → Page
  | .mobileMenuBtn => { p with navMenu := mobileMenuBtnClick p.navMenu }
  | .navLink j => if j < p.navLinks then { p with navMenu := navLinkClick p.navMenu } else p
  | .languageSwitcher =>
    match p.translations with
    | some t => languageSwitcherClick t p
    | none => p
  | .nav n =>
    match p.carousel with
    | some c => { p with carousel := some (c.click n) }
    | none => p

/-- A sequence of clicks, oldest first. -/
def run (p : Page) (events : List Event) : Page :=
  events.foldl click p

/-- The navigation panel is shown: its class list holds `active`. -/
def shown (navMenu : List String) : Bool :=
  ClassList.contains navMenu "active"

/-- The dot carries the `active` marker. -/
def Dot.active (d : Dot) : Bool :=
  ClassList.contains d.classList "active"

/-! ## Sample pages -/

/-- Dictionary of the scenario: `greeting` in English. -/
def sampleEN : Dict := fun k => if k = "greeting" then some "Hello" else none

/-- Dictionary of the scenario: `greeting` in Spanish. -/
def sampleES : Dict := fun k => if k = "greeting" then some "Hola" else none

/-- The reads of the built-in function `Object` that the examples use: its `name` and
its `length`. -/
def objectFunction : Dict :=
  fun k => if k = "name" then some "Object" else if k = "length" then some "1" else none

/-- What an object literal inherits, cut down to the member the examples use:
`constructor`, which is the function `Object`. -/
def sampleInherited : String → Option Dict :=
  fun k => if k = "constructor" then some objectFunction else none

/-- A page with one translatable heading, one input and three slides. -/
def sampleMarkup : Markup :=
  { navMenu := ["nav-menu"]
    navLinks := 3
    translationsEN := some sampleEN
    translationsES := some sampleES
    objectPrototype := sampleInherited
    storage := none
    documentLang := "en"
    elements :=
      [ { dataKey := "greeting", tagName := "H1", textContent := "Hi", placeholder := "" },
        { dataKey := "greeting", tagName := "INPUT", textContent := "", placeholder := "..." },
        { dataKey := "tagline", tagName := "P", textContent := "Care", placeholder := "" } ]
    switcherText := ""
    slider := true
    testimonials := 3 }

/-! ## Definitions used by the statements -/

/-- The dots of an `n`-slide carousel when the marker sits at position `k`. -/
def dotsAt (n k : Nat) : List Dot :=
  (List.range n).map (fun j =>
    { classList := if j = k then ["dot", "active"] else ["dot"], index := j })

/-- Invariant of an `n`-slide carousel: the index is a position `k < n`, the marker
sits on dot `k` alone, and no listener has thrown. -/
def Carousel.Sync (n : Nat) (c : Carousel) : Prop :=
  c.totalSlides = n ∧ c.uncaught = [] ∧
    ∃ k : Nat, k < n ∧ c.currentIndex = (k : Int) ∧ c.dots = dotsAt n k

/-- The carousel right after its set-up. -/
def Carousel.fresh (n : Nat) : Carousel :=
  { totalSlides := n, currentIndex := 0, dots := dotsAt n 0, transform := "", uncaught := [] }

/-- A dictionary that stores the empty string under `greeting`. -/
def blankEN : Dict := fun k => if k = "greeting" then some "" else none

/-- The sample page with `blankEN` as the English dictionary. -/
def blankMarkup : Markup := { sampleMarkup with translationsEN := some blankEN }

/-- The sample page with an unsupported code in local storage. -/
def frenchMarkup : Markup := { sampleMarkup with storage := some "fr" }

/-- The sample page with the name field of a contact form as its only translatable
element and `constructor` in local storage. -/
def constructorMarkup : Markup :=
  { sampleMarkup with
    storage := some "constructor"
    elements :=
      [ { dataKey := "name", tagName := "INPUT", textContent := "",
          placeholder := "Your name" } ] }

/-- The sample page without its English dictionary. -/
def brokenMarkup : Markup := { sampleMarkup with translationsEN := none }

/-- The upper-case form of a language code. -/
def upperCase (code : String) : String :=
  String.mk (code.data.map Char.toUpper)

/-- The language closure is live: the switch has its listener, and the active language
`l` is also the persisted one. -/
def Page.Active (t : Translations) (l : String) (p : Page) : Prop :=
  p.translations = some t ∧ p.currentLang = some l ∧ p.storage = some l

/-! # Theorems -/

/-! ## Helper lemmas: class lists -/

theorem ClassList.contains_remove (cl : List String) (token : String) :
    ClassList.contains (ClassList.remove cl token) token = false := by
  simp [ClassList.contains, ClassList.remove]

theorem ClassList.contains_toggle (cl : List String) (token : String) :
    ClassList.contains (ClassList.toggle cl token) token = !ClassList.contains cl token := by
  unfold ClassList.toggle
  by_cases h : ClassList.contains cl token = true
  · rw [if_pos h, ClassList.contains_remove, h]; rfl
  · rw [if_neg h]
    simp only [Bool.not_eq_true] at h
    rw [h]
    simp [ClassList.contains]

theorem shown_navLinkClick (navMenu : List String) : shown (navLinkClick navMenu) = false := by
  unfold navLinkClick shown
  by_cases h : ClassList.contains navMenu "active" = true
  · rw [if_pos h, ClassList.contains_remove]
  · rw [if_neg h]; simpa using h

theorem run_cons (p : Page) (e : Event) (es : List Event) :
    run p (e :: es) = run (click p e) es := rfl

theorem domContentLoaded_navMenu (m : Markup) : (domContentLoaded m).navMenu = m.navMenu := by
  unfold domContentLoaded
  cases m.translationsEN <;> cases m.translationsES <;> rfl

theorem shown_run_mobileMenuBtn (n : Nat) (p : Page) :
    shown (run p (List.replicate n Event.mobileMenuBtn)).navMenu
      = xor (shown p.navMenu) (decide (n % 2 = 1)) := by
  induction n generalizing p with
  | zero => simp [run]
  | succ n ih =>
    rw [List.replicate_succ, run_cons, ih]
    have h : shown (click p Event.mobileMenuBtn).navMenu = !shown p.navMenu := by
      simp only [click, mobileMenuBtnClick, shown, ClassList.contains_toggle]
    rw [h]
    rcases Nat.mod_two_eq_zero_or_one n with h0 | h1
    · have : (n + 1) % 2 = 1 := by omega
      cases hs : shown p.navMenu <;> simp [h0, this]
    · have : (n + 1) % 2 = 0 := by omega
      cases hs : shown p.navMenu <;> simp [h1, this]

/-- C10. Menu parity: on a page whose navigation panel starts hidden, after any number
`n` of clicks on the menu button the panel is shown exactly when `n` is odd; and in
every page state `p`, a click on a navigation link leaves the panel hidden. -/
theorem menu_parity (m : Markup) (n : Nat) (p : Page) (j : Nat)
    (hidden : shown m.navMenu = false) (hj : j < p.navLinks) :
    (shown (run (domContentLoaded m) (List.replicate n Event.mobileMenuBtn)).navMenu = true
        ↔ n % 2 = 1)
    ∧ shown (click p (Event.navLink j)).navMenu = false := by
  constructor
  · rw [shown_run_mobileMenuBtn, domContentLoaded_navMenu, hidden]
    simp
  · simp only [click, if_pos hj, shown_navLinkClick]

/-- Three clicks on the menu button of the sample page show the panel, and a click on
its first link then hides it. -/
theorem menu_parity_witness :
    shown sampleMarkup.navMenu = false
    ∧ 0 < (run (domContentLoaded sampleMarkup) (List.replicate 3 Event.mobileMenuBtn)).navLinks
    ∧ shown (run (domContentLoaded sampleMarkup)
        (List.replicate 3 Event.mobileMenuBtn)).navMenu = true
    ∧ (shown (run (domContentLoaded sampleMarkup)
          (List.replicate 3 Event.mobileMenuBtn)).navMenu = true ↔ 3 % 2 = 1)
    ∧ shown (click (run (domContentLoaded sampleMarkup) (List.replicate 3 Event.mobileMenuBtn))
        (Event.navLink 0)).navMenu = false :=
  ⟨by decide, by decide, by decide,
    menu_parity sampleMarkup 3
      (run (domContentLoaded sampleMarkup) (List.replicate 3 Event.mobileMenuBtn)) 0
      (by decide) (by decide)⟩

theorem add_dot : ClassList.add [] "dot" = ["dot"] := by decide

theorem add_active : ClassList.add ["dot"] "active" = ["dot", "active"] := by decide

theorem remove_active : ClassList.remove ["dot", "active"] "active" = ["dot"] := by decide

theorem remove_plain : ClassList.remove ["dot"] "active" = ["dot"] := by decide

theorem contains_dot_plain : ClassList.contains ["dot"] "dot" = true := by decide

theorem contains_dot_active : ClassList.contains ["dot", "active"] "dot" = true := by decide

theorem createDot_eq (i : Nat) :
    createDot i = { classList := if i = 0 then ["dot", "active"] else ["dot"], index := i } := by
  unfold createDot
  by_cases h : i = 0
  · simp only [h, if_true, add_dot, add_active]
  · simp only [h, if_false, add_dot]

theorem createDots_eq (n : Nat) : createDots n = dotsAt n 0 := by
  unfold createDots dotsAt
  rw [List.filter_eq_self.mpr]
  · apply List.map_congr_left
    intro i _
    exact createDot_eq i
  · intro d hd
    rw [List.mem_map] at hd
    obtain ⟨i, _, rfl⟩ := hd
    rw [createDot_eq]
    by_cases h : i = 0
    · simp only [h, if_true, contains_dot_active]
    · simp only [h, if_false, contains_dot_plain]

theorem length_dotsAt (n k : Nat) : (dotsAt n k).length = n := by
  simp [dotsAt]

theorem getElem?_dotsAt (n k j : Nat) (h : j < n) :
    (dotsAt n k)[j]? = some { classList := if j = k then ["dot", "active"] else ["dot"], index := j } := by
  simp [dotsAt, List.getElem?_map, List.getElem?_range h]

theorem updateCarousel_dotsAt (c : Carousel) (n j k : Nat) (hk : k < n)
    (hdots : c.dots = dotsAt n j) (hidx : c.currentIndex = (k : Int)) :
    updateCarousel c =
      { c with transform := "translateX(-" ++ toString ((k : Int) * 100) ++ "%)"
               dots := dotsAt n k } := by
  have hplain : c.dots.map (fun dot =>
      ({ dot with classList := ClassList.remove dot.classList "active" } : Dot))
      = (List.range n).map (fun i => ({ classList := ["dot"], index := i } : Dot)) := by
    rw [hdots, dotsAt, List.map_map]
    apply List.map_congr_left
    intro i _
    by_cases h : i = j
    · simp only [Function.comp, h, if_true, remove_active]
    · simp only [Function.comp, h, if_false, remove_plain]
  unfold updateCarousel
  simp only [hplain, hidx, dotAt, Int.toNat_ofNat, Int.ofNat_nonneg, if_true,
    List.getElem?_map, List.getElem?_range hk, Option.map_some']
  congr 1
  apply List.ext_getElem?
  intro i
  by_cases hi : i < n
  · rw [getElem?_dotsAt n k i hi]
    by_cases hik : i = k
    · subst hik
      rw [List.getElem?_set_self (by simpa using hi)]
      simp only [if_true, add_active]
    · rw [List.getElem?_set_ne (Ne.symm hik)]
      simp [List.getElem?_map, List.getElem?_range hi, hik]
  · have h1 : (dotsAt n k).length ≤ i := by rw [length_dotsAt]; omega
    rw [List.getElem?_eq_none h1, List.getElem?_eq_none]
    simp; omega

theorem initCarousel_eq (n : Nat) (h : 2 ≤ n) : initCarousel n = some (Carousel.fresh n) := by
  unfold initCarousel Carousel.fresh
  rw [if_pos (by omega), createDots_eq]

theorem sync_init (n : Nat) (h : 2 ≤ n) : Carousel.Sync n (Carousel.fresh n) :=
  ⟨rfl, rfl, 0, by omega, rfl, rfl⟩

theorem nextBtnClick_sync (n k : Nat) (c : Carousel) (ht : c.totalSlides = n)
    (hu : c.uncaught = []) (hk : k < n) (hidx : c.currentIndex = (k : Int))
    (hdots : c.dots = dotsAt n k) :
    Carousel.Sync n (nextBtnClick c)
      ∧ (nextBtnClick c).currentIndex = (((k + 1) % n : Nat) : Int) := by
  have hlt : (k + 1) % n < n := Nat.mod_lt _ (by omega)
  have hi : Int.tmod (c.currentIndex + 1) (c.totalSlides : Int) = (((k + 1) % n : Nat) : Int) := by
    rw [hidx, ht, Int.ofNat_tmod]; rfl
  unfold nextBtnClick
  rw [hi, updateCarousel_dotsAt { c with currentIndex := (((k + 1) % n : Nat) : Int) }
    n k ((k + 1) % n) hlt hdots rfl]
  exact ⟨⟨ht, hu, (k + 1) % n, hlt, rfl, rfl⟩, rfl⟩

theorem prevBtnClick_sync (n k : Nat) (c : Carousel) (ht : c.totalSlides = n)
    (hu : c.uncaught = []) (hk : k < n) (hidx : c.currentIndex = (k : Int))
    (hdots : c.dots = dotsAt n k) :
    Carousel.Sync n (prevBtnClick c)
      ∧ (prevBtnClick c).currentIndex = (((k + n - 1) % n : Nat) : Int) := by
  have hlt : (k + n - 1) % n < n := Nat.mod_lt _ (by omega)
  have hi : Int.tmod (c.currentIndex - 1 + (c.totalSlides : Int)) (c.totalSlides : Int)
      = (((k + n - 1) % n : Nat) : Int) := by
    have hcast : (k : Int) - 1 + (n : Int) = ((k + n - 1 : Nat) : Int) := by omega
    rw [hidx, ht, hcast, Int.ofNat_tmod]
  unfold prevBtnClick
  rw [hi, updateCarousel_dotsAt { c with currentIndex := (((k + n - 1) % n : Nat) : Int) }
    n k ((k + n - 1) % n) hlt hdots rfl]
  exact ⟨⟨ht, hu, (k + n - 1) % n, hlt, rfl, rfl⟩, rfl⟩

theorem click_sync (n : Nat) (c : Carousel) (nav : Nav) (h : Carousel.Sync n c) :
    Carousel.Sync n (c.click nav) := by
  obtain ⟨ht, hu, k, hk, hidx, hdots⟩ := h
  cases nav with
  | next => exact (nextBtnClick_sync n k c ht hu hk hidx hdots).1
  | prev => exact (prevBtnClick_sync n k c ht hu hk hidx hdots).1
  | dot i =>
    simp only [Carousel.click]
    split
    · rename_i d hd
      have hi : i < n := by
        have hlt := (List.getElem?_eq_some_iff.mp hd).1
        rw [hdots, length_dotsAt] at hlt
        exact hlt
      have hget := getElem?_dotsAt n k i hi
      rw [← hdots, hd] at hget
      injection hget with hget
      have hdi : d.index = i := by rw [hget]
      unfold dotClick
      rw [hdi, updateCarousel_dotsAt { c with currentIndex := (i : Int) } n k i hi hdots rfl]
      exact ⟨ht, hu, i, hi, rfl, rfl⟩
    · exact ⟨ht, hu, k, hk, hidx, hdots⟩

theorem run_sync (n : Nat) (navs : List Nav) (c : Carousel) (h : Carousel.Sync n c) :
    Carousel.Sync n (c.run navs) := by
  induction navs generalizing c with
  | nil => exact h
  | cons nav navs ih => exact ih (c.click nav) (click_sync n c nav h)

theorem carousel_run_append (c : Carousel) (xs ys : List Nav) :
    c.run (xs ++ ys) = (c.run xs).run ys := by
  simp [Carousel.run, List.foldl_append]

theorem run_next_index (n : Nat) (c : Carousel) (h : Carousel.Sync n c)
    (h0 : c.currentIndex = 0) (j : Nat) :
    (c.run (List.replicate j Nav.next)).currentIndex = ((j % n : Nat) : Int) := by
  have hn : 0 < n := by obtain ⟨_, _, k, hk, _, _⟩ := h; omega
  induction j with
  | zero => simp [Carousel.run, h0]
  | succ j ih =>
    rw [List.replicate_succ', carousel_run_append]
    obtain ⟨ht, hu, k, hk, hidx, hdots⟩ := run_sync n (List.replicate j Nav.next) c h
    have hkj : k = j % n := by
      have := hidx.symm.trans ih
      exact_mod_cast this
    have hstep := (nextBtnClick_sync n k _ ht hu hk hidx hdots).2
    show (nextBtnClick _).currentIndex = _
    rw [hstep, hkj, Nat.mod_add_mod]

theorem active_marked (j : Nat) :
    Dot.active { classList := ["dot", "active"], index := j } = true := by
  simp [Dot.active, ClassList.contains]

theorem active_plain (j : Nat) :
    Dot.active { classList := ["dot"], index := j } = false := by
  simp [Dot.active, ClassList.contains]

theorem dotsAt_active (n k j : Nat) (d : Dot) (h : (dotsAt n k)[j]? = some d) :
    d.active = true ↔ j = k := by
  have hj : j < n := by
    have := List.getElem?_eq_some_iff.mp h
    obtain ⟨hlt, _⟩ := this
    simpa [length_dotsAt] using hlt
  rw [getElem?_dotsAt n k j hj] at h
  injection h with h
  subst h
  by_cases hjk : j = k
  · simp only [hjk, if_true, iff_true, active_marked]
  · simp only [hjk, if_false, iff_false, active_plain]
    simp

theorem countP_dotsAt (n k : Nat) (hk : k < n) : (dotsAt n k).countP Dot.active = 1 := by
  have hfun : (Dot.active ∘ fun j : Nat =>
      ({ classList := if j = k then ["dot", "active"] else ["dot"], index := j } : Dot))
      = fun j => j == k := by
    funext j
    by_cases hjk : j = k
    · simp only [Function.comp, hjk, if_true, active_marked, beq_self_eq_true]
    · simp only [Function.comp, hjk, if_false, active_plain]
      exact (beq_eq_false_iff_ne.mpr hjk).symm
  rw [dotsAt, List.countP_map, hfun]
  exact List.count_eq_one_of_mem (List.nodup_range n) (List.mem_range.mpr hk)

/-! ## Helper lemmas: language switcher -/

theorem translateElement_dataKey (t : Translations) (lang : String) (e : Element) :
    (translateElement t lang e).dataKey = e.dataKey := by
  unfold translateElement
  split
  · rfl
  · split
    · split
      · split <;> rfl
      · rfl
    · rfl

theorem translateElement_tagName (t : Translations) (lang : String) (e : Element) :
    (translateElement t lang e).tagName = e.tagName := by
  unfold translateElement
  split
  · rfl
  · split
    · split
      · split <;> rfl
      · rfl
    · rfl

theorem translateElement_found (t : Translations) (lang : String) (dict : Dict) (e : Element)
    (value : String) (hd : t.get lang = some dict) (hv : dict e.dataKey = some value)
    (hne : value ≠ "") :
    translateElement t lang e =
      if e.tagName = "INPUT" ∨ e.tagName = "TEXTAREA" then { e with placeholder := value }
      else { e with textContent := value } := by
  unfold translateElement
  simp only [hd, hv, truthy, bne_iff_ne, ne_eq, hne, not_false_eq_true, if_true]

theorem translateElement_missing (t : Translations) (lang : String) (e : Element)
    (h : ∀ dict, t.get lang = some dict → dict e.dataKey = none) :
    translateElement t lang e = e := by
  unfold translateElement
  split
  · rfl
  · rename_i dict hd
    rw [h dict hd]
    rfl

theorem translateElement_idem (t : Translations) (lang : String) (e : Element) :
    translateElement t lang (translateElement t lang e) = translateElement t lang e := by
  cases hd : t.get lang with
  | none => simp only [translateElement, hd]
  | some dict =>
    cases hv : dict e.dataKey with
    | none =>
      rw [translateElement_missing t lang e (fun d h => by rw [hd] at h; injection h with h; rw [← h, hv])]
      exact translateElement_missing t lang e (fun d h => by rw [hd] at h; injection h with h; rw [← h, hv])
    | some value =>
      by_cases hne : value = ""
      · have he : translateElement t lang e = e := by
          simp only [translateElement, hd, hv, truthy, hne, bne_self_eq_false, Bool.false_eq_true,
            if_false]
        rw [he, he]
      · rw [translateElement_found t lang dict e value hd hv hne]
        by_cases htag : e.tagName = "INPUT" ∨ e.tagName = "TEXTAREA"
        · rw [if_pos htag, translateElement_found t lang dict
            { e with placeholder := value } value hd hv hne, if_pos htag]
        · rw [if_neg htag, translateElement_found t lang dict
            { e with textContent := value } value hd hv hne, if_neg htag]

theorem getElem?_setLanguage (t : Translations) (lang : String) (p : Page) (i : Nat) :
    (setLanguage t lang p).elements[i]? = (p.elements[i]?).map (translateElement t lang) := by
  simp [setLanguage, List.getElem?_map]

/-- C5. Idempotence of `setLanguage`: for every language code, dictionaries and page
state, a second call in a row leaves the page exactly as the first call left it, and so
the active language, the persisted value, the document language, the switch label and
every element's text and placeholder. -/
theorem setLanguage_idempotent (t : Translations) (lang : String) (p : Page) :
    setLanguage t lang (setLanguage t lang p) = setLanguage t lang p := by
  unfold setLanguage
  simp only [List.map_map]
  congr 1
  apply List.map_congr_left
  intro e _
  exact translateElement_idem t lang e

/-- C6, as stated, fails: `greeting` is present in the English dictionary with the
empty string as its value, and after `setLanguage("en")` the heading still shows its
former text instead of that value. -/
theorem found_key_empty_value_not_applied :
    Translations.get { en := blankEN, es := sampleES, inherited := sampleInherited } "en" = some blankEN
    ∧ blankEN "greeting" = some ""
    ∧ (domContentLoaded blankMarkup).elements[0]? =
        some { dataKey := "greeting", tagName := "H1", textContent := "Hi", placeholder := "" }
    ∧ (setLanguage { en := blankEN, es := sampleES, inherited := sampleInherited } "en"
        (domContentLoaded blankMarkup)).elements[0]? =
        some { dataKey := "greeting", tagName := "H1", textContent := "Hi", placeholder := "" } :=
  ⟨rfl, by decide, by decide, by decide⟩

/-- C6, amended. Found keys are applied: for a supported `lang` and an element whose
key is present in the dictionary for `lang` with a non-empty value `v`, after
`setLanguage(lang)` the element at the same position has placeholder `v` if it is an
INPUT or TEXTAREA and text content `v` otherwise; its key and tag are unchanged. -/
theorem found_key_applied (t : Translations) (lang : String) (dict : Dict) (p : Page)
    (i : Nat) (e : Element) (v : String)
    (hlang : t.get lang = some dict) (he : p.elements[i]? = some e)
    (hv : dict e.dataKey = some v) (hne : v ≠ "") :
    ∃ e' : Element, (setLanguage t lang p).elements[i]? = some e'
      ∧ e'.dataKey = e.dataKey ∧ e'.tagName = e.tagName
      ∧ (e.tagName = "INPUT" ∨ e.tagName = "TEXTAREA" → e'.placeholder = v)
      ∧ (¬ (e.tagName = "INPUT" ∨ e.tagName = "TEXTAREA") → e'.textContent = v) := by
  refine ⟨translateElement t lang e, ?_, translateElement_dataKey t lang e,
    translateElement_tagName t lang e, ?_, ?_⟩
  · rw [getElem?_setLanguage, he]; rfl
  · intro htag
    rw [translateElement_found t lang dict e v hlang hv hne, if_pos htag]
  · intro htag
    rw [translateElement_found t lang dict e v hlang hv hne, if_neg htag]

/-- C7, evaluated on a page with `constructor` stored under `language` and the name
field of a form, `data-key="name"`, as translatable element: there is no dictionary for
that code and neither dictionary has an entry `name`, yet `translations[lang]` finds
the inherited function `Object`, whose `name` is "Object", and the initial
`setLanguage` overwrites the placeholder of the field. With no stored preference the
same field is left as it was. -/
theorem inherited_code_overwrites_placeholder :
    constructorMarkup.storage = some "constructor"
    ∧ sampleEN "name" = none ∧ sampleES "name" = none
    ∧ constructorMarkup.elements =
        [ { dataKey := "name", tagName := "INPUT", textContent := "",
            placeholder := "Your name" } ]
    ∧ (domContentLoaded constructorMarkup).currentLang = some "constructor"
    ∧ (domContentLoaded constructorMarkup).elements =
        [ { dataKey := "name", tagName := "INPUT", textContent := "",
            placeholder := "Object" } ]
    ∧ (domContentLoaded { constructorMarkup with storage := none }).elements =
        constructorMarkup.elements := by
  decide

/-- Reads that give `undefined` are a no-op: when `translations[lang]` is `undefined`,
or the value it gives has `undefined` under the element's key, `setLanguage(lang)`
leaves the element at that position as it was, text content and placeholder included. -/
theorem missing_key_unchanged (t : Translations) (lang : String) (p : Page)
    (i : Nat) (e : Element) (he : p.elements[i]? = some e)
    (hmiss : ∀ dict, t.get lang = some dict → dict e.dataKey = none) :
    (setLanguage t lang p).elements[i]? = some e
      ∧ (setLanguage t lang p).elements.length = p.elements.length := by
  constructor
  · rw [getElem?_setLanguage, he, Option.map_some', translateElement_missing t lang e hmiss]
  · simp [setLanguage]

theorem newLang_supported (l : String) : newLang l = "en" ∨ newLang l = "es" := by
  unfold newLang
  by_cases h : l = "en"
  · rw [if_pos h]; exact Or.inr rfl
  · rw [if_neg h]; exact Or.inl rfl

theorem setLanguage_active (t : Translations) (lang : String) (p : Page)
    (ht : p.translations = some t) : Page.Active t lang (setLanguage t lang p) :=
  ⟨ht, rfl, rfl⟩

theorem click_languageSwitcher (t : Translations) (l : String) (p : Page)
    (h : Page.Active t l p) :
    click p Event.languageSwitcher = setLanguage t (newLang l) p := by
  obtain ⟨ht, hl, _⟩ := h
  simp only [click, ht, languageSwitcherClick, hl]

theorem domContentLoaded_eq (m : Markup) (en es : Dict)
    (hen : m.translationsEN = some en) (hes : m.translationsES = some es) :
    domContentLoaded m =
      setLanguage { en := en, es := es, inherited := m.objectPrototype } (initialLang m.storage)
        { navMenu := m.navMenu
          navLinks := m.navLinks
          storage := m.storage
          documentLang := m.documentLang
          elements := m.elements
          switcherText := m.switcherText
          translations := some { en := en, es := es, inherited := m.objectPrototype }
          currentLang := some (initialLang m.storage)
          carousel := if m.slider then initCarousel m.testimonials else none
          console := [] } := by
  unfold domContentLoaded
  rw [hen, hes]

theorem domContentLoaded_active (m : Markup) (en es : Dict)
    (hen : m.translationsEN = some en) (hes : m.translationsES = some es) :
    Page.Active { en := en, es := es, inherited := m.objectPrototype } (initialLang m.storage) (domContentLoaded m) := by
  rw [domContentLoaded_eq m en es hen hes]
  exact ⟨rfl, rfl, rfl⟩

theorem run_languageSwitcher_active (t : Translations) (n : Nat) (l : String) (p : Page)
    (h : Page.Active t l p) :
    Page.Active t (newLang^[n] l) (run p (List.replicate n Event.languageSwitcher)) := by
  induction n generalizing l p with
  | zero => exact h
  | succ n ih =>
    rw [List.replicate_succ, run_cons, click_languageSwitcher t l p h, Function.iterate_succ_apply]
    exact ih (newLang l) _ (setLanguage_active t (newLang l) p h.1)

theorem iterate_newLang_supported (n : Nat) (l : String)
    (h : l = "en" ∨ l = "es" ∨ 0 < n) : newLang^[n] l = "en" ∨ newLang^[n] l = "es" := by
  cases n with
  | zero =>
    rcases h with h | h | h
    · exact Or.inl h
    · exact Or.inr h
    · omega
  | succ n =>
    rw [Function.iterate_succ_apply']
    exact newLang_supported _

theorem initialLang_supported (stored : Option String)
    (h : stored = none ∨ stored = some "" ∨ stored = some "en" ∨ stored = some "es") :
    initialLang stored = "en" ∨ initialLang stored = "es" := by
  rcases h with h | h | h | h <;> subst h
  · exact Or.inl rfl
  · exact Or.inl (by decide)
  · exact Or.inl (by decide)
  · exact Or.inr (by decide)

/-- C8, evaluated on the sample page with the unsupported code `fr` under the
`language` key: both dictionaries are loaded, and with no click on the switch the
active language and the persisted value after initialization are both `fr`, which is
neither `en` nor `es`; the document language is `fr` too and the label is `EN`. The
click listener, for its part, only ever selects `en` or `es`: one click gives `en`. -/
theorem unsupported_stored_language_kept :
    frenchMarkup.storage = some "fr"
    ∧ (run (domContentLoaded frenchMarkup) []).currentLang = some "fr"
    ∧ (run (domContentLoaded frenchMarkup) []).storage = some "fr"
    ∧ (some "fr" : Option String) ≠ some "en" ∧ (some "fr" : Option String) ≠ some "es"
    ∧ (run (domContentLoaded frenchMarkup) []).documentLang = "fr"
    ∧ (run (domContentLoaded frenchMarkup) []).switcherText = "EN"
    ∧ (run (domContentLoaded frenchMarkup) [Event.languageSwitcher]).currentLang = some "en"
    ∧ (run (domContentLoaded frenchMarkup) [Event.languageSwitcher]).storage = some "en" := by
  decide

/-- The click path keeps the language domain: on a page with both dictionaries, when
the value found under `language` at startup is absent, empty, `en` or `es`, or when the
switch has been clicked at least once, the active language after initialization and
`n` clicks on the switch is `en` or `es` and the persisted value equals it. -/
theorem active_language_domain (m : Markup) (en es : Dict) (n : Nat)
    (hen : m.translationsEN = some en) (hes : m.translationsES = some es)
    (h : m.storage = none ∨ m.storage = some "" ∨ m.storage = some "en"
          ∨ m.storage = some "es" ∨ 0 < n) :
    ((run (domContentLoaded m) (List.replicate n Event.languageSwitcher)).currentLang = some "en"
      ∨ (run (domContentLoaded m) (List.replicate n Event.languageSwitcher)).currentLang
          = some "es")
    ∧ (run (domContentLoaded m) (List.replicate n Event.languageSwitcher)).storage
        = (run (domContentLoaded m) (List.replicate n Event.languageSwitcher)).currentLang
    ∧ (domContentLoaded m).currentLang = some (initialLang m.storage)
    ∧ (domContentLoaded m).storage = some (initialLang m.storage)
    ∧ initialLang none = "en" := by
  have h0 := domContentLoaded_active m en es hen hes
  obtain ⟨_, hl, hs⟩ := run_languageSwitcher_active _ n _ _ h0
  have hsup : newLang^[n] (initialLang m.storage) = "en"
      ∨ newLang^[n] (initialLang m.storage) = "es" := by
    apply iterate_newLang_supported
    rcases h with h | h | h | h | h
    · rcases initialLang_supported m.storage (Or.inl h) with h' | h'
      · exact Or.inl h'
      · exact Or.inr (Or.inl h')
    · rcases initialLang_supported m.storage (Or.inr (Or.inl h)) with h' | h'
      · exact Or.inl h'
      · exact Or.inr (Or.inl h')
    · rcases initialLang_supported m.storage (Or.inr (Or.inr (Or.inl h))) with h' | h'
      · exact Or.inl h'
      · exact Or.inr (Or.inl h')
    · rcases initialLang_supported m.storage (Or.inr (Or.inr (Or.inr h))) with h' | h'
      · exact Or.inl h'
      · exact Or.inr (Or.inl h')
    · exact Or.inr (Or.inr h)
  refine ⟨?_, ?_, h0.2.1, h0.2.2, rfl⟩
  · rw [hl]
    rcases hsup with h' | h'
    · exact Or.inl (by rw [h'])
    · exact Or.inr (by rw [h'])
  · rw [hl, hs]

/-- The page that starts with `fr` stored is back in the domain after one click. -/
theorem active_language_domain_witness :
    frenchMarkup.translationsEN = some sampleEN ∧ frenchMarkup.translationsES = some sampleES
    ∧ 0 < 1
    ∧ ((run (domContentLoaded frenchMarkup) (List.replicate 1 Event.languageSwitcher)).currentLang
        = some "en"
      ∨ (run (domContentLoaded frenchMarkup) (List.replicate 1 Event.languageSwitcher)).currentLang
          = some "es")
    ∧ (run (domContentLoaded frenchMarkup) (List.replicate 1 Event.languageSwitcher)).storage
        = (run (domContentLoaded frenchMarkup)
            (List.replicate 1 Event.languageSwitcher)).currentLang
    ∧ (domContentLoaded frenchMarkup).currentLang = some (initialLang frenchMarkup.storage)
    ∧ (domContentLoaded frenchMarkup).storage = some (initialLang frenchMarkup.storage)
    ∧ initialLang none = "en" :=
  ⟨rfl, rfl, by decide,
    active_language_domain frenchMarkup sampleEN sampleES 1 rfl rfl
      (Or.inr (Or.inr (Or.inr (Or.inr (by decide)))))⟩

/-- C2. Carousel wrap-around: with `n ≥ 2` slides the carousel is set up at index 0;
`n` clicks on "next" bring the index back to 0, and one click on "previous" from index
0 gives index `n - 1`. -/
theorem carousel_wrap_around (n : Nat) (h : 2 ≤ n) :
    ∃ c : Carousel, initCarousel n = some c ∧ c.currentIndex = 0
      ∧ (c.run (List.replicate n Nav.next)).currentIndex = 0
      ∧ (c.run [Nav.prev]).currentIndex = (n : Int) - 1 := by
  refine ⟨_, initCarousel_eq n h, rfl, ?_, ?_⟩
  · rw [run_next_index n _ (sync_init n h) rfl n, Nat.mod_self]
    rfl
  · have hstep := (prevBtnClick_sync n 0 (Carousel.fresh n) rfl rfl (by omega) rfl rfl).2
    show (prevBtnClick (Carousel.fresh n)).currentIndex = _
    rw [hstep, Nat.zero_add, Nat.mod_eq_of_lt (by omega)]
    omega

/-- Three slides: three "next" clicks return to 0, "previous" from 0 gives 2. -/
theorem carousel_wrap_around_witness :
    2 ≤ 3 ∧ ∃ c : Carousel, initCarousel 3 = some c ∧ c.currentIndex = 0
      ∧ (c.run (List.replicate 3 Nav.next)).currentIndex = 0
      ∧ (c.run [Nav.prev]).currentIndex = ((3 : Nat) : Int) - 1 :=
  ⟨by decide, carousel_wrap_around 3 (by decide)⟩

/-- C3. Indicator sync: with `n ≥ 2` slides, after initialization and any sequence of
navigation clicks there are `n` dots, exactly one of them carries `active`, and a dot
carries it exactly when its position is the current index. -/
theorem indicator_sync (n : Nat) (h : 2 ≤ n) (navs : List Nav) :
    ∃ c : Carousel, initCarousel n = some c
      ∧ (c.run navs).dots.length = n
      ∧ (c.run navs).dots.countP Dot.active = 1
      ∧ ∀ (j : Nat) (d : Dot), (c.run navs).dots[j]? = some d →
          (d.active = true ↔ (j : Int) = (c.run navs).currentIndex) := by
  refine ⟨_, initCarousel_eq n h, ?_⟩
  obtain ⟨_, _, k, hk, hidx, hdots⟩ := run_sync n navs _ (sync_init n h)
  rw [hdots, hidx, length_dotsAt, countP_dotsAt n k hk]
  refine ⟨rfl, rfl, ?_⟩
  intro j d hd
  rw [dotsAt_active n k j d hd]
  exact Int.ofNat_inj.symm

/-- Three slides after "next", dot 2, "next". -/
theorem indicator_sync_witness :
    2 ≤ 3 ∧ ∃ c : Carousel, initCarousel 3 = some c
      ∧ (c.run [Nav.next, Nav.dot 2, Nav.next]).dots.length = 3
      ∧ (c.run [Nav.next, Nav.dot 2, Nav.next]).dots.countP Dot.active = 1
      ∧ ∀ (j : Nat) (d : Dot), (c.run [Nav.next, Nav.dot 2, Nav.next]).dots[j]? = some d →
          (d.active = true ↔ (j : Int) = (c.run [Nav.next, Nav.dot 2, Nav.next]).currentIndex) :=
  ⟨by decide, indicator_sync 3 (by decide) [Nav.next, Nav.dot 2, Nav.next]⟩

/-- C4. Index range: with `n ≥ 2` slides the index starts at 0 and after any sequence
of next, previous and dot clicks it satisfies `0 ≤ index < n`; the lookup
`dots[currentIndex]` finds a dot and no listener has thrown. -/
theorem index_in_range (n : Nat) (h : 2 ≤ n) (navs : List Nav) :
    ∃ c : Carousel, initCarousel n = some c ∧ c.currentIndex = 0
      ∧ 0 ≤ (c.run navs).currentIndex ∧ (c.run navs).currentIndex < (n : Int)
      ∧ (dotAt (c.run navs).dots (c.run navs).currentIndex).isSome = true
      ∧ (c.run navs).uncaught = [] := by
  refine ⟨_, initCarousel_eq n h, rfl, ?_⟩
  obtain ⟨_, hu, k, hk, hidx, hdots⟩ := run_sync n navs _ (sync_init n h)
  rw [hdots, hidx, hu]
  refine ⟨Int.ofNat_nonneg k, by exact_mod_cast hk, ?_, rfl⟩
  simp only [dotAt, Int.ofNat_nonneg, if_true, Int.toNat_ofNat]
  rw [getElem?_dotsAt n k k hk]
  rfl

/-- Three slides after "previous", dot 1, "previous", "previous". -/
theorem index_in_range_witness :
    2 ≤ 3 ∧ ∃ c : Carousel, initCarousel 3 = some c ∧ c.currentIndex = 0
      ∧ 0 ≤ (c.run [Nav.prev, Nav.dot 1, Nav.prev, Nav.prev]).currentIndex
      ∧ (c.run [Nav.prev, Nav.dot 1, Nav.prev, Nav.prev]).currentIndex < ((3 : Nat) : Int)
      ∧ (dotAt (c.run [Nav.prev, Nav.dot 1, Nav.prev, Nav.prev]).dots
          (c.run [Nav.prev, Nav.dot 1, Nav.prev, Nav.prev]).currentIndex).isSome = true
      ∧ (c.run [Nav.prev, Nav.dot 1, Nav.prev, Nav.prev]).uncaught = [] :=
  ⟨by decide, index_in_range 3 (by decide) [Nav.prev, Nav.dot 1, Nav.prev, Nav.prev]⟩

/-- C9. The switch label advertises the click target: on a page whose switch has its
listener, after `setLanguage("en")` the label is `ES`, the upper-case code of `es`, and
a click makes `es` the active and persisted language; after `setLanguage("es")` the
label is `EN` and a click makes `en` active and persisted. Hence, from an unset
preference on a page with both dictionaries, the initial state is `en` with label `ES`,
one click gives active and persisted `es` with label `EN`, and a restart that reads the
persisted value starts in `es`. -/
theorem switch_label_advertises_target (t : Translations) (p : Page) (m : Markup)
    (en es : Dict) (ht : p.translations = some t)
    (hen : m.translationsEN = some en) (hes : m.translationsES = some es)
    (hunset : m.storage = none) :
    ((setLanguage t "en" p).switcherText = "ES"
      ∧ (setLanguage t "en" p).switcherText = upperCase "es"
      ∧ (click (setLanguage t "en" p) Event.languageSwitcher).currentLang = some "es"
      ∧ (click (setLanguage t "en" p) Event.languageSwitcher).storage = some "es")
    ∧ ((setLanguage t "es" p).switcherText = "EN"
      ∧ (setLanguage t "es" p).switcherText = upperCase "en"
      ∧ (click (setLanguage t "es" p) Event.languageSwitcher).currentLang = some "en"
      ∧ (click (setLanguage t "es" p) Event.languageSwitcher).storage = some "en")
    ∧ ((domContentLoaded m).currentLang = some "en"
      ∧ (domContentLoaded m).switcherText = "ES")
    ∧ ((run (domContentLoaded m) [Event.languageSwitcher]).currentLang = some "es"
      ∧ (run (domContentLoaded m) [Event.languageSwitcher]).storage = some "es"
      ∧ (run (domContentLoaded m) [Event.languageSwitcher]).switcherText = "EN")
    ∧ (domContentLoaded
        { m with storage := (run (domContentLoaded m) [Event.languageSwitcher]).storage }
        ).currentLang = some "es" := by
  have hclick : ∀ l : String, click (setLanguage t l p) Event.languageSwitcher
      = setLanguage t (newLang l) (setLanguage t l p) :=
    fun l => click_languageSwitcher t l _ (setLanguage_active t l p ht)
  have hact : Page.Active { en := en, es := es, inherited := m.objectPrototype } "en" (domContentLoaded m) := by
    have h := domContentLoaded_active m en es hen hes
    rw [hunset] at h
    exact h
  have hswitch : (domContentLoaded m).switcherText = "ES" := by
    rw [domContentLoaded_eq m en es hen hes, hunset]
    rfl
  have hrun : run (domContentLoaded m) [Event.languageSwitcher]
      = setLanguage { en := en, es := es, inherited := m.objectPrototype } (newLang "en") (domContentLoaded m) :=
    click_languageSwitcher _ "en" _ hact
  have hstored : (run (domContentLoaded m) [Event.languageSwitcher]).storage = some "es" := by
    rw [hrun]; rfl
  have hES : "ES" = upperCase "es" := by decide
  have hEN : "EN" = upperCase "en" := by decide
  refine ⟨⟨rfl, hES, ?_, ?_⟩, ⟨rfl, hEN, ?_, ?_⟩, ⟨hact.2.1, hswitch⟩,
    ⟨?_, hstored, ?_⟩, ?_⟩
  · rw [hclick]; rfl
  · rw [hclick]; rfl
  · rw [hclick]; rfl
  · rw [hclick]; rfl
  · rw [hrun]; rfl
  · rw [hrun]; rfl
  · rw [hstored]
    exact (domContentLoaded_active { m with storage := some "es" } en es hen hes).2.1

/-- The sample page, which has both dictionaries and no stored preference. -/
theorem switch_label_advertises_target_witness :
    (domContentLoaded sampleMarkup).translations = some { en := sampleEN, es := sampleES, inherited := sampleInherited }
    ∧ sampleMarkup.translationsEN = some sampleEN ∧ sampleMarkup.translationsES = some sampleES
    ∧ sampleMarkup.storage = none
    ∧ ((setLanguage { en := sampleEN, es := sampleES, inherited := sampleInherited } "en"
        (domContentLoaded sampleMarkup)).switcherText = "ES"
      ∧ (setLanguage { en := sampleEN, es := sampleES, inherited := sampleInherited } "en"
          (domContentLoaded sampleMarkup)).switcherText = upperCase "es"
      ∧ (click (setLanguage { en := sampleEN, es := sampleES, inherited := sampleInherited } "en"
          (domContentLoaded sampleMarkup)) Event.languageSwitcher).currentLang = some "es"
      ∧ (click (setLanguage { en := sampleEN, es := sampleES, inherited := sampleInherited } "en"
          (domContentLoaded sampleMarkup)) Event.languageSwitcher).storage = some "es")
    ∧ ((setLanguage { en := sampleEN, es := sampleES, inherited := sampleInherited } "es"
          (domContentLoaded sampleMarkup)).switcherText = "EN"
      ∧ (setLanguage { en := sampleEN, es := sampleES, inherited := sampleInherited } "es"
          (domContentLoaded sampleMarkup)).switcherText = upperCase "en"
      ∧ (click (setLanguage { en := sampleEN, es := sampleES, inherited := sampleInherited } "es"
          (domContentLoaded sampleMarkup)) Event.languageSwitcher).currentLang = some "en"
      ∧ (click (setLanguage { en := sampleEN, es := sampleES, inherited := sampleInherited } "es"
          (domContentLoaded sampleMarkup)) Event.languageSwitcher).storage = some "en")
    ∧ ((domContentLoaded sampleMarkup).currentLang = some "en"
      ∧ (domContentLoaded sampleMarkup).switcherText = "ES")
    ∧ ((run (domContentLoaded sampleMarkup) [Event.languageSwitcher]).currentLang = some "es"
      ∧ (run (domContentLoaded sampleMarkup) [Event.languageSwitcher]).storage = some "es"
      ∧ (run (domContentLoaded sampleMarkup) [Event.languageSwitcher]).switcherText = "EN")
    ∧ (domContentLoaded
        { sampleMarkup with
          storage := (run (domContentLoaded sampleMarkup) [Event.languageSwitcher]).storage }
        ).currentLang = some "es" :=
  ⟨rfl, rfl, rfl, rfl,
    switch_label_advertises_target { en := sampleEN, es := sampleES, inherited := sampleInherited }
      (domContentLoaded sampleMarkup) sampleMarkup sampleEN sampleES rfl rfl rfl rfl⟩

/-- The input of the sample page gets the Spanish greeting as its placeholder. -/
theorem found_key_applied_witness :
    Translations.get { en := sampleEN, es := sampleES, inherited := sampleInherited } "es" = some sampleES
    ∧ (domContentLoaded sampleMarkup).elements[1]? =
        some { dataKey := "greeting", tagName := "INPUT", textContent := "", placeholder := "Hello" }
    ∧ sampleES "greeting" = some "Hola" ∧ "Hola" ≠ ""
    ∧ ∃ e' : Element,
      (setLanguage { en := sampleEN, es := sampleES, inherited := sampleInherited } "es"
        (domContentLoaded sampleMarkup)).elements[1]? = some e'
      ∧ e'.dataKey = "greeting" ∧ e'.tagName = "INPUT"
      ∧ (("INPUT" : String) = "INPUT" ∨ ("INPUT" : String) = "TEXTAREA" → e'.placeholder = "Hola")
      ∧ (¬ (("INPUT" : String) = "INPUT" ∨ ("INPUT" : String) = "TEXTAREA")
          → e'.textContent = "Hola") :=
  ⟨rfl, by decide, by decide, by decide,
    found_key_applied { en := sampleEN, es := sampleES, inherited := sampleInherited } "es" sampleES
      (domContentLoaded sampleMarkup) 1
      { dataKey := "greeting", tagName := "INPUT", textContent := "", placeholder := "Hello" }
      "Hola" rfl (by decide) (by decide) (by decide)⟩

/-- The paragraph of the sample page, whose key `tagline` is in no dictionary. -/
theorem missing_key_unchanged_witness :
    (domContentLoaded sampleMarkup).elements[2]?
      = some { dataKey := "tagline", tagName := "P", textContent := "Care", placeholder := "" }
    ∧ sampleES "tagline" = none
    ∧ (setLanguage { en := sampleEN, es := sampleES, inherited := sampleInherited } "es"
        (domContentLoaded sampleMarkup)).elements[2]?
      = some { dataKey := "tagline", tagName := "P", textContent := "Care", placeholder := "" }
    ∧ (setLanguage { en := sampleEN, es := sampleES, inherited := sampleInherited } "es"
        (domContentLoaded sampleMarkup)).elements.length
      = (domContentLoaded sampleMarkup).elements.length :=
  ⟨by decide, by decide,
    missing_key_unchanged { en := sampleEN, es := sampleES, inherited := sampleInherited } "es" (domContentLoaded sampleMarkup) 2
      { dataKey := "tagline", tagName := "P", textContent := "Care", placeholder := "" }
      (by decide)
      (fun dict hd => by
        have h : dict = sampleES := by
          have h' : some sampleES = some dict := hd
          injection h' with h'
          exact h'.symm
        rw [h]
        decide)⟩

/-- On every page that lacks a dictionary the handler stops at the diagnostic: neither
the language closure nor the carousel exists afterwards. -/
theorem domContentLoaded_missing_dictionary (m : Markup)
    (h : m.translationsEN = none ∨ m.translationsES = none) :
    (domContentLoaded m).console = [diagnostic] ∧ (domContentLoaded m).carousel = none
      ∧ (domContentLoaded m).translations = none := by
  unfold domContentLoaded
  rcases h with h | h
  · rw [h]; exact ⟨rfl, rfl, rfl⟩
  · rw [h]; cases m.translationsEN <;> exact ⟨rfl, rfl, rfl⟩

/-- C1, evaluated on the three-slide sample page without its English dictionary: the
handler logs the diagnostic and the menu button still toggles the panel, but the
carousel block never ran, so there is no dot and no index for a click on "next" to
change; on the same page with both dictionaries the click moves the index to 1. -/
theorem missing_dictionary_skips_carousel :
    brokenMarkup.slider = true ∧ brokenMarkup.testimonials = 3
    ∧ (domContentLoaded brokenMarkup).console = [diagnostic]
    ∧ shown (domContentLoaded brokenMarkup).navMenu = false
    ∧ shown (click (domContentLoaded brokenMarkup) Event.mobileMenuBtn).navMenu = true
    ∧ (domContentLoaded brokenMarkup).carousel = none
    ∧ (click (domContentLoaded brokenMarkup) (Event.nav Nav.next)).carousel = none
    ∧ ((click (domContentLoaded sampleMarkup) (Event.nav Nav.next)).carousel.map
        (fun c => (c.currentIndex, c.dots.length))) = some (1, 3) := by
  decide

/-- The greeting scenario: first load shows "Hello" with label "ES"; one click shows
"Hola", persists "es" and shows label "EN"; a reload from the persisted value shows
"Hola". -/
theorem greeting_scenario :
    ((domContentLoaded sampleMarkup).elements.map (fun e => e.textContent)).head? = some "Hello"
    ∧ (domContentLoaded sampleMarkup).switcherText = "ES"
    ∧ ((run (domContentLoaded sampleMarkup) [Event.languageSwitcher]).elements.map
        (fun e => e.textContent)).head? = some "Hola"
    ∧ (run (domContentLoaded sampleMarkup) [Event.languageSwitcher]).storage = some "es"
    ∧ (run (domContentLoaded sampleMarkup) [Event.languageSwitcher]).switcherText = "EN"
    ∧ ((domContentLoaded { sampleMarkup with storage := some "es" }).elements.map
        (fun e => e.textContent)).head? = some "Hola" := by
  decide

/-- The three-slide scenario: "next" gives index 1 and a shift of -100%, dot 2 gives
index 2, and "next" wraps to index 0. -/
theorem three_slides_scenario :
    (initCarousel 3).map (fun c => ((c.run [Nav.next]).currentIndex, (c.run [Nav.next]).transform))
      = some (1, "translateX(-100%)")
    ∧ (initCarousel 3).map (fun c => (c.run [Nav.next, Nav.dot 2]).currentIndex) = some 2
    ∧ (initCarousel 3).map (fun c => (c.run [Nav.next, Nav.dot 2, Nav.next]).currentIndex)
      = some 0 := by
  decide

end LandingPage
